import Mathlib

/-!
Verification of the scoring and verdict-aggregation engine of the
qa-repo-eval tool (`qa_repo_eval_tool/metrics_calculator.py`,
`qa_repo_eval_tool/types.py`, `qa_repo_eval_tool/metrics.py`).

Python floats are modelled as exact rationals (`ℚ`); Python ints as `ℤ`
(or `ℕ` for quantities that are documented and used as non-negative
counts and 0-10 sub-scores); Python `dict`s with fixed literal keys as
association lists in insertion order; fallible Python code (division by
zero, constructor calls with missing required arguments) as
`Except String`.
-/

namespace QAEval

/-- Field-for-field embedding of the dataclass `TestAutomationMetrics`
(`types.py`).  Sub-scores are documented as integers in 0-10 and are
modelled as `ℕ`. -/
structure TestAutomationMetrics where
  test_coverage_score : ℕ
  test_organization_score : ℕ
  framework_usage_score : ℕ
  assertion_quality_score : ℕ
  test_data_management_score : ℕ
  deriving DecidableEq

/-- Field-for-field embedding of the dataclass `CIPipelineMetrics` (`types.py`). -/
structure CIPipelineMetrics where
  pipeline_configuration_score : ℕ
  automated_testing_integration_score : ℕ
  deployment_automation_score : ℕ
  pipeline_efficiency_score : ℕ
  environment_management_score : ℕ
  deriving DecidableEq

/-- Field-for-field embedding of the dataclass `QualityProcessMetrics` (`types.py`). -/
structure QualityProcessMetrics where
  testing_strategy_score : ℕ
  bug_tracking_score : ℕ
  code_review_process_score : ℕ
  documentation_quality_score : ℕ
  collaboration_score : ℕ
  deriving DecidableEq

/-- Field-for-field embedding of the dataclass `TechnicalSkillsMetrics` (`types.py`). -/
structure TechnicalSkillsMetrics where
  test_design_patterns_score : ℕ
  api_testing_score : ℕ
  ui_testing_score : ℕ
  performance_testing_score : ℕ
  security_testing_score : ℕ
  deriving DecidableEq

/-- Field-for-field embedding of the dataclass `RepositoryStructureMetrics` (`types.py`). -/
structure RepositoryStructureMetrics where
  project_structure_score : ℕ
  test_structure_score : ℕ
  configuration_management_score : ℕ
  dependency_management_score : ℕ
  version_control_practices_score : ℕ
  deriving DecidableEq

/-- Field-for-field embedding of the dataclass `QAMetrics` (`types.py`),
in the declaration order of the source. -/
structure QAMetrics where
  commit_count : ℕ
  primary_language : String
  test_file_count : ℕ
  total_file_count : ℕ
  test_frameworks : List String
  test_automation : TestAutomationMetrics
  ci_pipeline : CIPipelineMetrics
  quality_process : QualityProcessMetrics
  technical_skills : TechnicalSkillsMetrics
  repository_structure : RepositoryStructureMetrics
  overall_qa_maturity_score : ℤ
  qa_level : String
  strengths : List String
  improvement_areas : List String
  final_verdict : String
  final_verdict_reason : String
  deriving DecidableEq

/-- The sum taken inside `QAMetrics.get_category_scores` for the
test_automation entry (`sum([...])` over the five sub-scores). -/
def TestAutomationMetrics.score_sum (t : TestAutomationMetrics) : ℕ :=
  t.test_coverage_score + t.test_organization_score + t.framework_usage_score +
    t.assertion_quality_score + t.test_data_management_score

/-- The sum taken inside `QAMetrics.get_category_scores` for the ci_pipeline entry. -/
def CIPipelineMetrics.score_sum (c : CIPipelineMetrics) : ℕ :=
  c.pipeline_configuration_score + c.automated_testing_integration_score +
    c.deployment_automation_score + c.pipeline_efficiency_score +
    c.environment_management_score

/-- The sum taken inside `QAMetrics.get_category_scores` for the quality_process entry. -/
def QualityProcessMetrics.score_sum (q : QualityProcessMetrics) : ℕ :=
  q.testing_strategy_score + q.bug_tracking_score + q.code_review_process_score +
    q.documentation_quality_score + q.collaboration_score

/-- The sum taken inside `QAMetrics.get_category_scores` for the technical_skills entry. -/
def TechnicalSkillsMetrics.score_sum (t : TechnicalSkillsMetrics) : ℕ :=
  t.test_design_patterns_score + t.api_testing_score + t.ui_testing_score +
    t.performance_testing_score + t.security_testing_score

/-- The sum taken inside `QAMetrics.get_category_scores` for the repository_structure entry. -/
def RepositoryStructureMetrics.score_sum (r : RepositoryStructureMetrics) : ℕ :=
  r.project_structure_score + r.test_structure_score + r.configuration_management_score +
    r.dependency_management_score + r.version_control_practices_score

/-- `QAMetrics.get_category_scores` (`types.py`): the `Dict[str, float]` of
per-category averages, modelled as an association list in the insertion
order of the source dict literal. -/
def QAMetrics.get_category_scores (m : QAMetrics) : List (String × ℚ) :=
  [("test_automation", (m.test_automation.score_sum : ℚ) / 5),
   ("ci_pipeline", (m.ci_pipeline.score_sum : ℚ) / 5),
   ("quality_process", (m.quality_process.score_sum : ℚ) / 5),
   ("technical_skills", (m.technical_skills.score_sum : ℚ) / 5),
   ("repository_structure", (m.repository_structure.score_sum : ℚ) / 5)]

/-- Python dict indexing `category_scores[category]`.  Every lookup
performed by the source uses a key that is present, so the default value
0 of this total model is never returned on the source's executions. -/
def catScore (m : QAMetrics) (c : String) : ℚ :=
  ((m.get_category_scores).lookup c).getD 0

/-- Python `int(...)` applied to a float: truncation toward zero. -/
def pyInt (q : ℚ) : ℤ := if 0 ≤ q then ⌊q⌋ else ⌈q⌉

/-- `calculate_overall_qa_score` (`metrics_calculator.py`): the weighted
sum over the weights dict in its insertion order (test_automation 0.30,
technical_skills 0.25, quality_process 0.25, ci_pipeline 0.20), scaled
by 10 and truncated with `int(...)`. -/
def calculate_overall_qa_score (m : QAMetrics) : ℤ :=
  pyInt ((catScore m "test_automation" * 0.30 + catScore m "technical_skills" * 0.25 +
    catScore m "quality_process" * 0.25 + catScore m "ci_pipeline" * 0.20) * 10)

/-- `QA_LEVEL_THRESHOLDS` (`types.py`), in the source's dict order, which
is already descending by threshold; the source's
`sorted(..., key=value, reverse=True)` therefore returns this same list. -/
def QA_LEVEL_THRESHOLDS : List (String × ℤ) :=
  [("Expert", 85), ("Advanced", 70), ("Intermediate", 50), ("Beginner", 0)]

/-- The loop body of `determine_qa_level`: return the first level of the
descending-sorted threshold list whose threshold the score meets,
falling back to "Beginner". -/
def levelLoop : List (String × ℤ) → ℤ → String
  | [], _ => "Beginner"
  | (level, threshold) :: rest, s => if s ≥ threshold then level else levelLoop rest s

/-- `determine_qa_level` (`metrics_calculator.py`). -/
def determine_qa_level (overall_score : ℤ) : String :=
  levelLoop QA_LEVEL_THRESHOLDS overall_score

/-- `VERDICT_THRESHOLDS["PASS"]` (`types.py`). -/
def VERDICT_THRESHOLDS_PASS : ℤ := 70

/-- `VERDICT_THRESHOLDS["CONDITIONAL_PASS"]` (`types.py`). -/
def VERDICT_THRESHOLDS_CONDITIONAL_PASS : ℤ := 50

/-- One entry of `MINIMUM_REQUIREMENTS` (`types.py`). -/
structure Requirements where
  min_test_files : ℕ
  min_commit_count : ℕ
  required_categories : List String
  min_category_score : ℚ

/-- `MINIMUM_REQUIREMENTS["PASS"]` (`types.py`). -/
def MINIMUM_REQUIREMENTS_PASS : Requirements :=
  ⟨5, 10, ["test_automation", "repository_structure"], 6.0⟩

/-- `MINIMUM_REQUIREMENTS["CONDITIONAL_PASS"]` (`types.py`). -/
def MINIMUM_REQUIREMENTS_CONDITIONAL_PASS : Requirements :=
  ⟨3, 5, ["test_automation"], 4.0⟩

/-- Python f-string formatting `{x:.1f}` for the non-negative category
averages of this program (every average is a natural sum divided by 5,
hence an exact non-negative multiple of one tenth, which `%.1f` renders
exactly). -/
def formatScore1 (q : ℚ) : String :=
  let n := (⌊q * 10⌋).toNat
  toString (n / 10) ++ "." ++ toString (n % 10)

/-- The body of the `for required_category in requirements["required_categories"]`
loop of `determine_verdict`: the accumulator carries the reasons list and
the current verdict string. -/
def categoryCheck (m : QAMetrics) (req : Requirements)
    (acc : List String × String) (c : String) : List String × String :=
  if catScore m c < req.min_category_score then
    (acc.1 ++ ["Low " ++ c ++ " score (" ++ formatScore1 (catScore m c) ++ ")"],
     if acc.2 = "PASS" then "CONDITIONAL_PASS" else acc.2)
  else acc

/-- The `if verdict != "FAIL"` block of `determine_verdict`: the three
requirement checks (test files, commit history, required categories),
each appending a reason and downgrading a still-PASS verdict to
CONDITIONAL_PASS. -/
def applyRequirementChecks (m : QAMetrics) (req : Requirements)
    (verdict : String) : List String × String :=
  let acc : List String × String :=
    if m.test_file_count < req.min_test_files then
      (["Insufficient test files (" ++ toString m.test_file_count ++ " < " ++
          toString req.min_test_files ++ ")"],
       if verdict = "PASS" then "CONDITIONAL_PASS" else verdict)
    else ([], verdict)
  let acc :=
    if m.commit_count < req.min_commit_count then
      (acc.1 ++ ["Insufficient commit history (" ++ toString m.commit_count ++ " < " ++
          toString req.min_commit_count ++ ")"],
       if acc.2 = "PASS" then "CONDITIONAL_PASS" else acc.2)
    else acc
  req.required_categories.foldl (categoryCheck m req) acc

/-- The reason-string assembly of `determine_verdict` (source lines 87-101):
canned messages when no reasons accumulated, otherwise the reasons joined
with "; ", with " (Score: <score>)" appended only for CONDITIONAL_PASS. -/
def assembleReason (acc : List String × String) (overall_score : ℤ) : String × String :=
  let reasons := acc.1
  let verdict := acc.2
  let reason :=
    if reasons = [] then
      if verdict = "PASS" then
        "Strong QA skills demonstrated across all areas (Score: " ++ toString overall_score ++ ")"
      else if verdict = "CONDITIONAL_PASS" then
        "Good QA foundation with room for improvement (Score: " ++ toString overall_score ++ ")"
      else
        "QA skills need significant development (Score: " ++ toString overall_score ++ ")"
    else
      let joined := String.intercalate "; " reasons
      if verdict = "CONDITIONAL_PASS" then
        joined ++ " (Score: " ++ toString overall_score ++ ")"
      else joined
  (verdict, reason)

/-- `determine_verdict` (`metrics_calculator.py`): threshold selection,
requirement checks (only when the starting verdict is not FAIL), and
reason assembly. -/
def determine_verdict (m : QAMetrics) (overall_score : ℤ) : String × String :=
  if overall_score ≥ VERDICT_THRESHOLDS_PASS then
    assembleReason (applyRequirementChecks m MINIMUM_REQUIREMENTS_PASS "PASS") overall_score
  else if overall_score ≥ VERDICT_THRESHOLDS_CONDITIONAL_PASS then
    assembleReason
      (applyRequirementChecks m MINIMUM_REQUIREMENTS_CONDITIONAL_PASS "CONDITIONAL_PASS")
      overall_score
  else
    assembleReason
      (["Overall QA score (" ++ toString overall_score ++ ") is below minimum threshold"],
       "FAIL")
      overall_score

/-- Python true division `a / b` on two ints: raises ZeroDivisionError
when the divisor is zero, otherwise returns the exact quotient as a float. -/
def pyDivNat (a b : ℕ) : Except String ℚ :=
  if b = 0 then Except.error "ZeroDivisionError: division by zero"
  else Except.ok ((a : ℚ) / (b : ℚ))

/-- Python `str.replace("_", " ")` on our category names (no multi-char
patterns occur, so a character-wise map is exact). -/
def pyReplaceUnderscore (s : String) : String :=
  String.mk (s.data.map (fun c => if c = '_' then ' ' else c))

/-- Helper for `pyTitle`: upper-case every alphabetic character that does
not follow an alphabetic character (the inputs here are already
lower-case, so the lower-casing part of Python `str.title` is a no-op). -/
def pyTitleAux : List Char → Bool → List Char
  | [], _ => []
  | c :: rest, prevAlpha =>
    (if c.isAlpha && !prevAlpha then c.toUpper else c) :: pyTitleAux rest c.isAlpha

/-- Python `str.title()` restricted to the lower-case inputs this program
feeds it. -/
def pyTitle (s : String) : String := String.mk (pyTitleAux s.data false)

/-- `category.replace("_", " ").title()` from the category loop of
`identify_strengths_and_improvements`. -/
def humanizeCategory (c : String) : String := pyTitle (pyReplaceUnderscore c)

/-- The loop body of `identify_strengths_and_improvements` over
`category_scores.items()`: the humanized category name goes to the
strengths for an average ≥ 7.5, to the improvements for an average
< 5.0, and nowhere otherwise. -/
def insightStep (acc : List String × List String) (p : String × ℚ) :
    List String × List String :=
  if p.2 ≥ 7.5 then (acc.1 ++ [humanizeCategory p.1], acc.2)
  else if p.2 < 5.0 then (acc.1, acc.2 ++ [humanizeCategory p.1])
  else acc

/-- The signal-derived second half of `identify_strengths_and_improvements`
(source lines 126-141), acting on the strengths/improvements lists the
category loop accumulated.  The test-coverage branch divides
`test_file_count` by `total_file_count` with Python `/`, which raises
ZeroDivisionError when `total_file_count == 0` and
`test_file_count != 0`. -/
def signalPhase (m : QAMetrics) (strengths0 improvements0 : List String) :
    Except String (List String × List String) := do
  let (strengths, improvements) ←
    if m.test_file_count = 0 then
      Except.ok (strengths0, improvements0 ++ ["Test Coverage - No test files found"])
    else do
      let ratio ← pyDivNat m.test_file_count m.total_file_count
      if ratio > 0.3 then Except.ok (strengths0 ++ ["High Test Coverage Ratio"], improvements0)
      else Except.ok (strengths0, improvements0)
  let (strengths, improvements) :=
    if 2 ≤ m.test_frameworks.length then (strengths ++ ["Multiple Testing Frameworks"], improvements)
    else if m.test_frameworks.length = 0 then (strengths, improvements ++ ["Testing Framework Usage"])
    else (strengths, improvements)
  let (strengths, improvements) :=
    if m.commit_count < 5 then (strengths, improvements ++ ["Version Control Practices"])
    else if 50 < m.commit_count then (strengths ++ ["Active Development History"], improvements)
    else (strengths, improvements)
  Except.ok (strengths, improvements)

/-- `identify_strengths_and_improvements` (`metrics_calculator.py`):
the category loop followed by the signal-derived insights, in source
order. -/
def identify_strengths_and_improvements (m : QAMetrics) :
    Except String (List String × List String) :=
  let si := m.get_category_scores.foldl insightStep ([], [])
  signalPhase m si.1 si.2

/-- Field-for-field embedding of the dataclass `QAResult` (`types.py`). -/
structure QAResult where
  url : String
  metrics : Option QAMetrics
  error_message : Option String

/-- The property `QAResult.is_successful` (`types.py`):
`self.metrics is not None and self.error_message is None`. -/
def QAResult.is_successful (r : QAResult) : Bool :=
  r.metrics.isSome && r.error_message.isNone

/-- Field-for-field embedding of the dataclass `QAReportSummary`
(`types.py`).  The two Python count dicts are modelled as their count
functions; a key absent from the Python dict maps to count 0 here, and
the (set-iteration dependent) key order of the Python dict is not
modelled. -/
structure QAReportSummary where
  total_repositories : ℕ
  successful_evaluations : ℕ
  failed_evaluations : ℕ
  average_qa_maturity_score : ℚ
  qa_level_distribution : String → ℕ
  verdict_distribution : String → ℕ
  common_strengths : List String
  common_improvement_areas : List String
  top_frameworks : List String

/-- Stable insertion of one label into a list sorted descending by count
(helper for `get_most_common`). -/
def insertByCount (cnt : String → ℕ) (x : String) : List String → List String
  | [] => [x]
  | y :: ys => if cnt y < cnt x then x :: y :: ys else y :: insertByCount cnt x ys

/-- Descending-by-count sort (helper for `get_most_common`). -/
def sortByCountDesc (cnt : String → ℕ) : List String → List String
  | [] => []
  | x :: xs => insertByCount cnt x (sortByCountDesc cnt xs)

/-- First-seen-order deduplication (the model of iterating Python
`set(items)`; CPython's set-iteration order is unspecified, a first-seen
order is fixed here to make the model deterministic). -/
def dedupFirstSeen (items : List String) : List String :=
  items.foldl (fun acc x => if x ∈ acc then acc else acc ++ [x]) []

/-- The local helper `get_most_common` of `generate_report_summary`:
unique labels sorted descending by frequency, truncated to `limit`. -/
def get_most_common (items : List String) (limit : ℕ) : List String :=
  if items = [] then []
  else (sortByCountDesc (fun x => items.count x) (dedupFirstSeen items)).take limit

/-- `generate_report_summary` (`metrics_calculator.py`).  The metrics of
the successful results are extracted with `filterMap`; every successful
result has `metrics` present, so no entry is dropped. -/
def generate_report_summary (results : List QAResult) : QAReportSummary :=
  let successful_results := results.filter (fun r => r.is_successful)
  if successful_results.length = 0 then
    ⟨results.length, 0, results.length, 0, fun _ => 0, fun _ => 0, [], [], []⟩
  else
    let metricsList := successful_results.filterMap (fun r => r.metrics)
    let qa_levels := metricsList.map (fun m => m.qa_level)
    let verdicts := metricsList.map (fun m => m.final_verdict)
    let all_strengths := (metricsList.map (fun m => m.strengths)).flatten
    let all_improvements := (metricsList.map (fun m => m.improvement_areas)).flatten
    let all_frameworks := (metricsList.map (fun m => m.test_frameworks)).flatten
    ⟨results.length,
     successful_results.length,
     results.length - successful_results.length,
     (metricsList.map (fun m => (m.overall_qa_maturity_score : ℚ))).sum /
       (successful_results.length : ℚ),
     fun level => qa_levels.count level,
     fun v => verdicts.count v,
     get_most_common all_strengths 5,
     get_most_common all_improvements 5,
     get_most_common all_frameworks 5⟩

/-- The summary dict returned by `get_evaluation_summary` (`metrics.py`),
modelled as a structure.  `score_distribution` keeps the insertion order
of the source dict literal; `verdict_distribution` is modelled as its
count function (set-iteration key order not modelled). -/
structure EvaluationSummary where
  total_repositories : ℕ
  successful_evaluations : ℕ
  failed_evaluations : ℕ
  success_rate : ℚ
  average_score : ℚ
  score_distribution : List (String × ℕ)
  verdict_distribution : String → ℕ

/-- The `score_ranges` dict literal of `get_evaluation_summary`
(`metrics.py`): the four fixed buckets applied to the successes'
overall scores. -/
def score_ranges (scores : List ℤ) : List (String × ℕ) :=
  [("Expert (85-100)", (scores.filter (fun s => decide (85 ≤ s))).length),
   ("Advanced (70-84)", (scores.filter (fun s => decide (70 ≤ s ∧ s < 85))).length),
   ("Intermediate (50-69)", (scores.filter (fun s => decide (50 ≤ s ∧ s < 70))).length),
   ("Beginner (0-49)", (scores.filter (fun s => decide (s < 50))).length)]

/-- `get_evaluation_summary` (`metrics.py`). -/
def get_evaluation_summary (results : List QAResult) : EvaluationSummary :=
  if results.length = 0 then
    ⟨0, 0, 0, 0, 0, [], fun _ => 0⟩
  else
    let successful_results := results.filter (fun r => r.is_successful)
    let total_repos := results.length
    let successful_count := successful_results.length
    let failed_count := total_repos - successful_count
    let success_rate : ℚ :=
      if 0 < total_repos then (successful_count : ℚ) / (total_repos : ℚ) else 0
    if successful_results.length ≠ 0 then
      let scores : List ℤ := (successful_results.filterMap (fun r => r.metrics)).map
        (fun m => m.overall_qa_maturity_score)
      let verdicts := (successful_results.filterMap (fun r => r.metrics)).map
        (fun m => m.final_verdict)
      ⟨total_repos, successful_count, failed_count, success_rate,
       (scores.map (fun s => (s : ℚ))).sum / (scores.length : ℚ),
       score_ranges scores,
       fun v => verdicts.count v⟩
    else
      ⟨total_repos, successful_count, failed_count, success_rate, 0, [], fun _ => 0⟩

/-- Python's `TestAutomationMetrics(...)` constructor call with
positional arguments: the dataclass `__init__` raises TypeError unless
exactly the five required arguments are supplied. -/
def testAutomationInit (args : List ℕ) : Except String TestAutomationMetrics :=
  match args with
  | [a, b, c, d, e] => Except.ok ⟨a, b, c, d, e⟩
  | _ => Except.error "TypeError: TestAutomationMetrics takes 5 required arguments"

/-- Python's `TechnicalSkillsMetrics(...)` constructor call with
positional arguments: the dataclass `__init__` raises TypeError unless
exactly the five required arguments are supplied. -/
def technicalSkillsInit (args : List ℕ) : Except String TechnicalSkillsMetrics :=
  match args with
  | [a, b, c, d, e] => Except.ok ⟨a, b, c, d, e⟩
  | _ => Except.error "TypeError: TechnicalSkillsMetrics takes 5 required arguments"

/-- The keyword arguments of a `QAMetrics(...)` constructor call: `none`
models an omitted keyword. -/
structure QAMetricsKwargs where
  commit_count : Option ℕ
  primary_language : Option String
  test_file_count : Option ℕ
  total_file_count : Option ℕ
  test_frameworks : Option (List String)
  test_automation : Option TestAutomationMetrics
  ci_pipeline : Option CIPipelineMetrics
  quality_process : Option QualityProcessMetrics
  technical_skills : Option TechnicalSkillsMetrics
  repository_structure : Option RepositoryStructureMetrics
  overall_qa_maturity_score : Option ℤ
  qa_level : Option String
  strengths : Option (List String)
  improvement_areas : Option (List String)
  final_verdict : Option String
  final_verdict_reason : Option String

/-- Python's `QAMetrics(...)` dataclass `__init__` with keyword
arguments: raises TypeError when any required field is omitted. -/
def qaMetricsInit (k : QAMetricsKwargs) : Except String QAMetrics :=
  match k.commit_count, k.primary_language, k.test_file_count, k.total_file_count,
    k.test_frameworks, k.test_automation, k.ci_pipeline, k.quality_process,
    k.technical_skills, k.repository_structure, k.overall_qa_maturity_score,
    k.qa_level, k.strengths, k.improvement_areas, k.final_verdict,
    k.final_verdict_reason with
  | some a, some b, some c, some d, some e, some f, some g, some h,
    some i, some j, some l, some n, some o, some p, some q, some r =>
    Except.ok ⟨a, b, c, d, e, f, g, h, i, j, l, n, o, p, q, r⟩
  | _, _, _, _, _, _, _, _, _, _, _, _, _, _, _, _ =>
    Except.error "TypeError: QAMetrics missing required arguments"

/-- `create_default_metrics` (`metrics_calculator.py`): the source calls
`TestAutomationMetrics(0, 0, 0, 0, 0)` (five arguments, fine), then
`TechnicalSkillsMetrics(0, 0, 0)` (only three of five required
arguments), then `QAMetrics(...)` without the `ci_pipeline`,
`quality_process` and `repository_structure` keywords; argument
evaluation order means the `TechnicalSkillsMetrics` call raises first. -/
def create_default_metrics : Except String QAMetrics := do
  let ta ← testAutomationInit [0, 0, 0, 0, 0]
  let ts ← technicalSkillsInit [0, 0, 0]
  qaMetricsInit
    ⟨some 0, some "unknown", some 0, some 0, some [], some ta, none, none,
     some ts, none, some 0, some "Beginner", some [], some [], some "FAIL",
     some "Not evaluated"⟩

end QAEval

namespace QAEval

/-! ## Spec-side characterizations

The definitions below are written from the wording of the specification
(check order, fixed insight order, bucket shapes); the theorems compare
them with the functions embedded from the source above. -/

/-- Spec-side: the reasons the three PASS requirement checks accumulate,
in check order (test files, commit history, then the two required
categories in requirement-set order), with the thresholds of the PASS
requirement set (min_test_files 5, min_commit_count 10,
min_category_score 6.0). -/
def passRequirementReasons (m : QAMetrics) : List String :=
  (if m.test_file_count < 5 then
     ["Insufficient test files (" ++ toString m.test_file_count ++ " < 5)"] else []) ++
  (if m.commit_count < 10 then
     ["Insufficient commit history (" ++ toString m.commit_count ++ " < 10)"] else []) ++
  (if catScore m "test_automation" < 6.0 then
     ["Low test_automation score (" ++ formatScore1 (catScore m "test_automation") ++ ")"] else []) ++
  (if catScore m "repository_structure" < 6.0 then
     ["Low repository_structure score (" ++ formatScore1 (catScore m "repository_structure") ++ ")"] else [])

/-- Spec-side: the humanized names of the categories whose average is
≥ 7.5, in category-iteration order. -/
def catStrengths : List (String × ℚ) → List String
  | [] => []
  | p :: rest => (if p.2 ≥ 7.5 then [humanizeCategory p.1] else []) ++ catStrengths rest

/-- Spec-side: the humanized names of the categories whose average is
< 5.0 (and not ≥ 7.5), in category-iteration order; averages in
[5.0, 7.5) contribute to neither list. -/
def catImprovements : List (String × ℚ) → List String
  | [] => []
  | p :: rest =>
    (if p.2 ≥ 7.5 then [] else if p.2 < 5.0 then [humanizeCategory p.1] else []) ++
      catImprovements rest

/-- Spec-side: the signal-derived strengths in their fixed order
(coverage ratio, framework count, commit count). -/
def signalStrengths (m : QAMetrics) : List String :=
  (if m.test_file_count ≠ 0 ∧ (m.test_file_count : ℚ) / (m.total_file_count : ℚ) > 0.3 then
     ["High Test Coverage Ratio"] else []) ++
  (if 2 ≤ m.test_frameworks.length then ["Multiple Testing Frameworks"] else []) ++
  (if 50 < m.commit_count then ["Active Development History"] else [])

/-- Spec-side: the signal-derived improvement areas in their fixed order
(missing tests, missing frameworks, sparse commit history). -/
def signalImprovements (m : QAMetrics) : List String :=
  (if m.test_file_count = 0 then ["Test Coverage - No test files found"] else []) ++
  (if m.test_frameworks.length = 0 then ["Testing Framework Usage"] else []) ++
  (if m.commit_count < 5 then ["Version Control Practices"] else [])

/-- A metrics value with every sub-score 10 and healthy signals. -/
def allTensMetrics : QAMetrics :=
  ⟨10, "python", 5, 10, ["pytest", "selenium"],
   ⟨10, 10, 10, 10, 10⟩, ⟨10, 10, 10, 10, 10⟩, ⟨10, 10, 10, 10, 10⟩, ⟨10, 10, 10, 10, 10⟩,
   ⟨10, 10, 10, 10, 10⟩, 100, "Expert", [], [], "PASS", "ok"⟩

/-- Identical to `allTensMetrics` except that every repository_structure
sub-score is 0. -/
def lowRepoHighMetrics : QAMetrics :=
  ⟨10, "python", 5, 10, ["pytest", "selenium"],
   ⟨10, 10, 10, 10, 10⟩, ⟨10, 10, 10, 10, 10⟩, ⟨10, 10, 10, 10, 10⟩, ⟨10, 10, 10, 10, 10⟩,
   ⟨0, 0, 0, 0, 0⟩, 100, "Expert", [], [], "PASS", "ok"⟩

/-- A metrics value with one test file but zero total files: the ratio
insight divides by zero on it. -/
def divErrMetrics : QAMetrics :=
  ⟨5, "python", 1, 0, [], ⟨0, 0, 0, 0, 0⟩, ⟨0, 0, 0, 0, 0⟩, ⟨0, 0, 0, 0, 0⟩,
   ⟨0, 0, 0, 0, 0⟩, ⟨0, 0, 0, 0, 0⟩, 0, "Beginner", [], [], "FAIL", "none"⟩

/-- A metrics value with no test files and no files at all. -/
def noFilesMetrics : QAMetrics :=
  ⟨0, "unknown", 0, 0, [], ⟨0, 0, 0, 0, 0⟩, ⟨0, 0, 0, 0, 0⟩, ⟨0, 0, 0, 0, 0⟩,
   ⟨0, 0, 0, 0, 0⟩, ⟨0, 0, 0, 0, 0⟩, 0, "Beginner", [], [], "FAIL", "none"⟩

/-- The scenario of the spec: strong scores but only 2 test files. -/
def condMetrics : QAMetrics :=
  ⟨10, "python", 2, 10, ["pytest", "selenium"],
   ⟨10, 10, 10, 10, 10⟩, ⟨10, 10, 10, 10, 10⟩, ⟨10, 10, 10, 10, 10⟩, ⟨10, 10, 10, 10, 10⟩,
   ⟨10, 10, 10, 10, 10⟩, 75, "Advanced", [], [], "CONDITIONAL_PASS", "x"⟩

/-- A result carrying both a metrics value and an error message. -/
def bothPresentResult : QAResult := ⟨"url", some divErrMetrics, some "boom"⟩

/-! ## Helper lemmas -/

lemma catScore_test_automation (m : QAMetrics) :
    catScore m "test_automation" = (m.test_automation.score_sum : ℚ) / 5 := by
  simp [catScore, QAMetrics.get_category_scores, List.lookup]

lemma catScore_ci_pipeline (m : QAMetrics) :
    catScore m "ci_pipeline" = (m.ci_pipeline.score_sum : ℚ) / 5 := by
  simp [catScore, QAMetrics.get_category_scores, List.lookup]

lemma catScore_quality_process (m : QAMetrics) :
    catScore m "quality_process" = (m.quality_process.score_sum : ℚ) / 5 := by
  simp [catScore, QAMetrics.get_category_scores, List.lookup]

lemma catScore_technical_skills (m : QAMetrics) :
    catScore m "technical_skills" = (m.technical_skills.score_sum : ℚ) / 5 := by
  simp [catScore, QAMetrics.get_category_scores, List.lookup]

lemma catScore_repository_structure (m : QAMetrics) :
    catScore m "repository_structure" = (m.repository_structure.score_sum : ℚ) / 5 := by
  simp [catScore, QAMetrics.get_category_scores, List.lookup]

/-- The truncated weighted sum equals a single natural division by 10. -/
lemma calculate_eq_div (m : QAMetrics) :
    calculate_overall_qa_score m =
      (((6 * m.test_automation.score_sum + 5 * m.technical_skills.score_sum +
         5 * m.quality_process.score_sum + 4 * m.ci_pipeline.score_sum) / 10 : ℕ) : ℤ) := by
  rw [calculate_overall_qa_score, catScore_test_automation, catScore_technical_skills,
    catScore_quality_process, catScore_ci_pipeline]
  rw [pyInt, if_pos (by positivity)]
  have key : ((m.test_automation.score_sum : ℚ) / 5 * 0.30 +
      (m.technical_skills.score_sum : ℚ) / 5 * 0.25 +
      (m.quality_process.score_sum : ℚ) / 5 * 0.25 +
      (m.ci_pipeline.score_sum : ℚ) / 5 * 0.20) * 10 =
      ((6 * m.test_automation.score_sum + 5 * m.technical_skills.score_sum +
        5 * m.quality_process.score_sum + 4 * m.ci_pipeline.score_sum : ℕ) : ℚ) /
        ((10 : ℕ) : ℚ) := by
    push_cast
    ring
  rw [key, Rat.floor_natCast_div_natCast]
  omega

/-- The requirement-check phase of `determine_verdict`, started at PASS
with the PASS requirement set, produces exactly the spec-side reasons,
and the verdict is downgraded to CONDITIONAL_PASS exactly when some
reason was produced. -/
lemma apply_pass (m : QAMetrics) :
    applyRequirementChecks m MINIMUM_REQUIREMENTS_PASS "PASS" =
      (passRequirementReasons m,
       if passRequirementReasons m = [] then "PASS" else "CONDITIONAL_PASS") := by
  have e5 : toString (5:ℕ) = "5" := rfl
  have e10 : toString (10:ℕ) = "10" := rfl
  by_cases h1 : m.test_file_count < 5 <;>
  by_cases h2 : m.commit_count < 10 <;>
  by_cases h3 : catScore m "test_automation" < 6.0 <;>
  by_cases h4 : catScore m "repository_structure" < 6.0 <;>
    simp [applyRequirementChecks, MINIMUM_REQUIREMENTS_PASS, passRequirementReasons,
      categoryCheck, h1, h2, h3, h4, e5, e10, String.append_assoc]

/-- The category loop accumulates exactly the spec-side category
strengths and improvements, in iteration order. -/
lemma foldl_insightStep (l : List (String × ℚ)) (s i : List String) :
    l.foldl insightStep (s, i) = (s ++ catStrengths l, i ++ catImprovements l) := by
  induction l generalizing s i with
  | nil => simp [catStrengths, catImprovements]
  | cons p rest ih =>
    rw [List.foldl_cons, insightStep]
    by_cases h1 : p.2 ≥ 7.5
    · rw [if_pos h1, ih]
      simp [catStrengths, catImprovements, h1]
    · rw [if_neg h1]
      by_cases h2 : p.2 < 5.0
      · rw [if_pos h2, ih]
        simp [catStrengths, catImprovements, h1, h2]
      · rw [if_neg h2, ih]
        simp [catStrengths, catImprovements, h1, h2]

/-- On inputs that do not divide by zero, the signal phase appends
exactly the spec-side signal insights. -/
lemma signalPhase_ok (m : QAMetrics) (A B : List String)
    (h : m.test_file_count = 0 ∨ m.total_file_count ≠ 0) :
    signalPhase m A B = Except.ok (A ++ signalStrengths m, B ++ signalImprovements m) := by
  by_cases h0 : m.test_file_count = 0
  · simp only [signalPhase, if_pos h0, Bind.bind, Except.bind]
    by_cases hf2 : 2 ≤ m.test_frameworks.length <;>
    by_cases hf0 : m.test_frameworks.length = 0 <;>
    by_cases hc : m.commit_count < 5 <;>
    by_cases hc2 : 50 < m.commit_count <;>
    first
      | (exfalso; omega)
      | simp [signalStrengths, signalImprovements, h0, hf2, hf0, hc, hc2]
  · have hnz : m.total_file_count ≠ 0 := by
      rcases h with h | hnz
      · exact absurd h h0
      · exact hnz
    simp only [signalPhase, if_neg h0, pyDivNat, if_neg hnz, Bind.bind, Except.bind]
    by_cases hr : (m.test_file_count : ℚ) / (m.total_file_count : ℚ) > 0.3 <;>
    by_cases hf2 : 2 ≤ m.test_frameworks.length <;>
    by_cases hf0 : m.test_frameworks.length = 0 <;>
    by_cases hc : m.commit_count < 5 <;>
    by_cases hc2 : 50 < m.commit_count <;>
    first
      | (exfalso; omega)
      | simp [signalStrengths, signalImprovements, h0, hr, hf2, hf0, hc, hc2]

/-- Full characterization of the insight extractor on inputs that do not
divide by zero. -/
lemma identify_eq_ok (m : QAMetrics) (h : m.test_file_count = 0 ∨ m.total_file_count ≠ 0) :
    identify_strengths_and_improvements m =
      Except.ok (catStrengths m.get_category_scores ++ signalStrengths m,
                 catImprovements m.get_category_scores ++ signalImprovements m) := by
  rw [identify_strengths_and_improvements]
  simp only [foldl_insightStep, List.nil_append]
  exact signalPhase_ok m _ _ h

/-- Every category strength is the humanized name of some listed category. -/
lemma mem_catStrengths {x : String} {l : List (String × ℚ)} (hx : x ∈ catStrengths l) :
    ∃ p, p ∈ l ∧ x = humanizeCategory p.1 := by
  induction l with
  | nil => simp [catStrengths] at hx
  | cons p rest ih =>
    rw [catStrengths] at hx
    rcases List.mem_append.1 hx with h | h
    · refine ⟨p, List.mem_cons_self p rest, ?_⟩
      by_cases hc : p.2 ≥ 7.5
      · rw [if_pos hc] at h
        simpa using h
      · rw [if_neg hc] at h
        simp at h
    · obtain ⟨q, hq, he⟩ := ih h
      exact ⟨q, List.mem_cons_of_mem p hq, he⟩

/-- Successful results all carry a metrics value, so extracting the
metrics drops no entry. -/
lemma filterMap_metrics_length (results : List QAResult) :
    ((results.filter (fun r => r.is_successful)).filterMap (fun r => r.metrics)).length =
      (results.filter (fun r => r.is_successful)).length := by
  induction results with
  | nil => rfl
  | cons r rest ih =>
    by_cases hr : r.is_successful
    · obtain ⟨mv, hm⟩ : ∃ mv, r.metrics = some mv := by
        rw [QAResult.is_successful, Bool.and_eq_true, Option.isSome_iff_exists] at hr
        exact hr.1
      simp [List.filter_cons, hr, List.filterMap_cons, hm, ih]
    · simp [List.filter_cons, hr, ih]

/-- The four score buckets partition the scores: their counts sum to the
number of scores. -/
lemma score_ranges_sum (scores : List ℤ) :
    ((score_ranges scores).map Prod.snd).sum = scores.length := by
  induction scores with
  | nil => rfl
  | cons s rest ih =>
    simp only [score_ranges, List.map_cons, List.map_nil, List.sum_cons, List.sum_nil,
      List.filter_cons] at ih ⊢
    by_cases h1 : 85 ≤ s <;>
    by_cases h2 : 70 ≤ s ∧ s < 85 <;>
    by_cases h3 : 50 ≤ s ∧ s < 70 <;>
    by_cases h4 : s < 50 <;>
    first
      | (exfalso; omega)
      | (simp [h1, h2, h3, h4] at ih ⊢
         omega)

end QAEval

namespace QAEval

/-! ## Claims -/

/-- C1: for every metrics value and every overall score strictly below
50, `determine_verdict` returns the verdict FAIL regardless of
test_file_count, commit_count, or category averages, and the reason
string is exactly "Overall QA score (<score>) is below minimum
threshold", with no " (Score: <score>)" suffix and no requirement-check
reasons added. -/
theorem claim_C1 (m : QAMetrics) (s : ℤ) (h : s < 50) :
    determine_verdict m s =
      ("FAIL", "Overall QA score (" ++ toString s ++ ") is below minimum threshold") := by
  rw [determine_verdict, if_neg (by simp [VERDICT_THRESHOLDS_PASS]; omega),
    if_neg (by simp [VERDICT_THRESHOLDS_CONDITIONAL_PASS]; omega)]
  simp [assembleReason, String.intercalate, String.intercalate.go]

/-- Witness for C1 at the spec's scenario score 40. -/
theorem claim_C1_witness :
    determine_verdict noFilesMetrics 40 =
      ("FAIL", "Overall QA score (40) is below minimum threshold") := by
  have h := claim_C1 noFilesMetrics 40 (by norm_num)
  rw [h]
  decide

/-- C2: for every metrics value and every overall score ≥ 70,
`determine_verdict` starts at PASS with the PASS requirement set
(min_test_files 5, min_commit_count 10, required categories
test_automation and repository_structure, min_category_score 6.0); the
checks applied in order (test files, commits, required categories)
contribute exactly the spec-side reasons `passRequirementReasons`; the
verdict is PASS when no check fails and CONDITIONAL_PASS (never FAIL)
otherwise, with the reasons joined by "; " and " (Score: <score>)"
appended exactly in the CONDITIONAL_PASS case. -/
theorem claim_C2 (m : QAMetrics) (s : ℤ) (h : 70 ≤ s) :
    determine_verdict m s =
      (if passRequirementReasons m = [] then
        ("PASS", "Strong QA skills demonstrated across all areas (Score: " ++ toString s ++ ")")
      else
        ("CONDITIONAL_PASS",
         String.intercalate "; " (passRequirementReasons m) ++ " (Score: " ++ toString s ++ ")")) := by
  rw [determine_verdict, if_pos (by simpa [VERDICT_THRESHOLDS_PASS] using h), apply_pass]
  by_cases hr : passRequirementReasons m = []
  · rw [if_pos hr, if_pos hr]
    simp [assembleReason, hr]
  · rw [if_neg hr, if_neg hr]
    simp [assembleReason, hr]

/-- Witness for C2 at the spec's scenario: score 75 with only 2 test
files yields CONDITIONAL_PASS with the exact reason string. -/
theorem claim_C2_witness :
    determine_verdict condMetrics 75 =
      ("CONDITIONAL_PASS", "Insufficient test files (2 < 5) (Score: 75)") := by
  have e : passRequirementReasons condMetrics = ["Insufficient test files (2 < 5)"] := by
    rw [passRequirementReasons, catScore_test_automation, catScore_repository_structure]
    norm_num [condMetrics, TestAutomationMetrics.score_sum, RepositoryStructureMetrics.score_sum]
    decide
  have h := claim_C2 condMetrics 75 (by norm_num)
  rw [h, if_neg (by rw [e]; simp), e]
  rfl

/-- C3: for every overall score in [0, 100] the classifier returns the
level with the highest met threshold (Expert ≥ 85, Advanced ≥ 70,
Intermediate ≥ 50, Beginner ≥ 0), boundary values belonging to the
higher level, and the function is total; in particular 84 is Advanced,
85 is Expert, 0 is Beginner and 100 is Expert. -/
theorem claim_C3 :
    (∀ s : ℤ, 0 ≤ s → s ≤ 100 →
      determine_qa_level s =
        (if 85 ≤ s then "Expert" else if 70 ≤ s then "Advanced"
         else if 50 ≤ s then "Intermediate" else "Beginner")) ∧
    determine_qa_level 84 = "Advanced" ∧ determine_qa_level 85 = "Expert" ∧
    determine_qa_level 0 = "Beginner" ∧ determine_qa_level 100 = "Expert" := by
  refine ⟨?_, by rfl, by rfl, by rfl, by rfl⟩
  intro s h0 _
  simp only [determine_qa_level, QA_LEVEL_THRESHOLDS, levelLoop, ge_iff_le]
  rw [if_pos h0]

/-- Witness for C3 at the boundary value 84. -/
theorem claim_C3_witness :
    determine_qa_level 84 =
      (if 85 ≤ (84 : ℤ) then "Expert" else if 70 ≤ (84 : ℤ) then "Advanced"
       else if 50 ≤ (84 : ℤ) then "Intermediate" else "Beginner") :=
  claim_C3.1 84 (by norm_num) (by norm_num)

/-- C5 (amended): with total_file_count = 0 the insight extractor avoids
the division and produces no coverage-ratio insight only when
test_file_count is also 0; when test_file_count is nonzero it raises
ZeroDivisionError (so the original claim's "for any value of
test_file_count ... never raises a division error" fails, see the
counterexample). -/
theorem claim_C5 (m : QAMetrics) (htot : m.total_file_count = 0) :
    (m.test_file_count = 0 →
      ∃ p, identify_strengths_and_improvements m = Except.ok p ∧
        "High Test Coverage Ratio" ∉ p.1) ∧
    (m.test_file_count ≠ 0 →
      identify_strengths_and_improvements m =
        Except.error "ZeroDivisionError: division by zero") := by
  constructor
  · intro h0
    refine ⟨_, identify_eq_ok m (Or.inl h0), ?_⟩
    intro hmem
    rcases List.mem_append.1 hmem with hmem | hmem
    · obtain ⟨p, hp, he⟩ := mem_catStrengths hmem
      have d1 : ("High Test Coverage Ratio" : String) ≠ humanizeCategory "test_automation" := by decide
      have d2 : ("High Test Coverage Ratio" : String) ≠ humanizeCategory "ci_pipeline" := by decide
      have d3 : ("High Test Coverage Ratio" : String) ≠ humanizeCategory "quality_process" := by decide
      have d4 : ("High Test Coverage Ratio" : String) ≠ humanizeCategory "technical_skills" := by decide
      have d5 : ("High Test Coverage Ratio" : String) ≠ humanizeCategory "repository_structure" := by decide
      simp only [QAMetrics.get_category_scores, List.mem_cons, List.not_mem_nil,
        or_false] at hp
      rcases hp with rfl | rfl | rfl | rfl | rfl
      · exact absurd he d1
      · exact absurd he d2
      · exact absurd he d3
      · exact absurd he d4
      · exact absurd he d5
    · rw [signalStrengths] at hmem
      rw [if_neg (by simp [h0])] at hmem
      simp only [List.nil_append] at hmem
      rcases List.mem_append.1 hmem with hmem | hmem <;>
        split at hmem <;> revert hmem <;> decide
  · intro h0
    simp only [identify_strengths_and_improvements]
    rw [signalPhase, if_neg h0, pyDivNat, if_pos htot]
    rfl

/-- Counterexample to C5 as stated: one test file with zero total files
makes the extractor divide by zero and raise. -/
theorem claim_C5_counterexample :
    divErrMetrics.total_file_count = 0 ∧
    identify_strengths_and_improvements divErrMetrics =
      Except.error "ZeroDivisionError: division by zero" := by
  refine ⟨rfl, ?_⟩
  simp only [identify_strengths_and_improvements]
  rw [signalPhase, if_neg (by decide : ¬ divErrMetrics.test_file_count = 0), pyDivNat,
    if_pos (by decide : divErrMetrics.total_file_count = 0)]
  rfl

/-- Witness for C5 at a metrics value with no files at all. -/
theorem claim_C5_witness :
    ∃ p, identify_strengths_and_improvements noFilesMetrics = Except.ok p ∧
      "High Test Coverage Ratio" ∉ p.1 :=
  (claim_C5 noFilesMetrics rfl).1 rfl

/-- Counterexample to C6 as stated: the claim quantifies over every
QAMetrics input, but at a concrete input with one test file and zero
total files the extractor produces no insight lists at all — it raises
ZeroDivisionError instead, so its result is not ok. -/
theorem claim_C6_counterexample :
    divErrMetrics.test_file_count = 1 ∧ divErrMetrics.total_file_count = 0 ∧
    identify_strengths_and_improvements divErrMetrics =
      Except.error "ZeroDivisionError: division by zero" ∧
    (identify_strengths_and_improvements divErrMetrics).isOk = false := by
  have he : identify_strengths_and_improvements divErrMetrics =
      Except.error "ZeroDivisionError: division by zero" := by
    simp only [identify_strengths_and_improvements]
    rw [signalPhase, if_neg (by decide : ¬ divErrMetrics.test_file_count = 0), pyDivNat,
      if_pos (by decide : divErrMetrics.total_file_count = 0)]
    rfl
  refine ⟨rfl, rfl, he, ?_⟩
  rw [he]
  rfl

/-- C6 (amended): on every input that does not raise the division error
(that is, excluding test_file_count > 0 with total_file_count = 0, where
the extractor raises ZeroDivisionError and produces no insights — see
the counterexample), the insight extractor iterates the categories in
the fixed order test_automation, ci_pipeline, quality_process,
technical_skills, repository_structure, adding the humanized name to
the strengths for an average ≥ 7.5, to the improvements for an average
< 5.0 and to neither for an average in [5.0, 7.5); the signal-derived
insights follow the category-derived ones in their fixed order. -/
theorem claim_C6 (m : QAMetrics)
    (h : m.test_file_count = 0 ∨ m.total_file_count ≠ 0) :
    identify_strengths_and_improvements m =
      Except.ok
        (catStrengths
           [("test_automation", (m.test_automation.score_sum : ℚ) / 5),
            ("ci_pipeline", (m.ci_pipeline.score_sum : ℚ) / 5),
            ("quality_process", (m.quality_process.score_sum : ℚ) / 5),
            ("technical_skills", (m.technical_skills.score_sum : ℚ) / 5),
            ("repository_structure", (m.repository_structure.score_sum : ℚ) / 5)] ++
          signalStrengths m,
         catImprovements
           [("test_automation", (m.test_automation.score_sum : ℚ) / 5),
            ("ci_pipeline", (m.ci_pipeline.score_sum : ℚ) / 5),
            ("quality_process", (m.quality_process.score_sum : ℚ) / 5),
            ("technical_skills", (m.technical_skills.score_sum : ℚ) / 5),
            ("repository_structure", (m.repository_structure.score_sum : ℚ) / 5)] ++
          signalImprovements m) := by
  rw [identify_eq_ok m h]
  rfl

/-- Witness for C6 at the no-files metrics value. -/
theorem claim_C6_witness :
    identify_strengths_and_improvements noFilesMetrics =
      Except.ok
        (catStrengths
           [("test_automation", (noFilesMetrics.test_automation.score_sum : ℚ) / 5),
            ("ci_pipeline", (noFilesMetrics.ci_pipeline.score_sum : ℚ) / 5),
            ("quality_process", (noFilesMetrics.quality_process.score_sum : ℚ) / 5),
            ("technical_skills", (noFilesMetrics.technical_skills.score_sum : ℚ) / 5),
            ("repository_structure", (noFilesMetrics.repository_structure.score_sum : ℚ) / 5)] ++
          signalStrengths noFilesMetrics,
         catImprovements
           [("test_automation", (noFilesMetrics.test_automation.score_sum : ℚ) / 5),
            ("ci_pipeline", (noFilesMetrics.ci_pipeline.score_sum : ℚ) / 5),
            ("quality_process", (noFilesMetrics.quality_process.score_sum : ℚ) / 5),
            ("technical_skills", (noFilesMetrics.technical_skills.score_sum : ℚ) / 5),
            ("repository_structure", (noFilesMetrics.repository_structure.score_sum : ℚ) / 5)] ++
          signalImprovements noFilesMetrics) :=
  claim_C6 noFilesMetrics (Or.inl rfl)

/-- C7 (amended): a result is successful exactly when a metrics value is
present and the error message is absent, and the batch summarizer
classifies every record by that discriminant alone; a record where both
or neither hold is silently counted as a failure, no InvariantViolation
is raised (the source has no such check), see the counterexample. -/
theorem claim_C7 :
    (∀ r : QAResult, r.is_successful = true ↔
      r.metrics.isSome = true ∧ r.error_message = none) ∧
    (∀ results : List QAResult,
      (generate_report_summary results).successful_evaluations =
        (results.filter (fun r => r.is_successful)).length ∧
      (generate_report_summary results).failed_evaluations =
        results.length - (results.filter (fun r => r.is_successful)).length) := by
  constructor
  · intro r
    rw [QAResult.is_successful]
    cases r.metrics <;> cases r.error_message <;> simp
  · intro results
    rw [generate_report_summary]
    by_cases h : (results.filter (fun r => r.is_successful)).length = 0
    · rw [if_pos h]
      refine ⟨h.symm, ?_⟩
      rw [h]
      show results.length = results.length - 0
      omega
    · rw [if_neg h]
      exact ⟨rfl, rfl⟩

/-- Counterexample to C7 as stated: a record carrying both a metrics
value and an error message is processed without any failure, silently
classified as a failed evaluation. -/
theorem claim_C7_counterexample :
    bothPresentResult.metrics.isSome = true ∧
    bothPresentResult.error_message.isSome = true ∧
    generate_report_summary [bothPresentResult] =
      ⟨1, 0, 1, 0, fun _ => 0, fun _ => 0, [], [], []⟩ := by
  refine ⟨rfl, rfl, ?_⟩
  rfl

/-- Witness for C7 on a concrete one-element batch. -/
theorem claim_C7_witness :
    (generate_report_summary [bothPresentResult]).successful_evaluations =
      ([bothPresentResult].filter (fun r => r.is_successful)).length :=
  (claim_C7.2 [bothPresentResult]).1

/-- C8: for every result sequence both summarizers satisfy
successes + failures = total, the four score buckets of
`get_evaluation_summary` count every success exactly once (their counts
sum to the success count), and each single score falls in exactly one
bucket. -/
theorem claim_C8 (results : List QAResult) :
    (generate_report_summary results).successful_evaluations +
      (generate_report_summary results).failed_evaluations = results.length ∧
    (get_evaluation_summary results).successful_evaluations +
      (get_evaluation_summary results).failed_evaluations = results.length ∧
    ((get_evaluation_summary results).score_distribution.map Prod.snd).sum =
      (results.filter (fun r => r.is_successful)).length ∧
    (∀ s : ℤ, ((score_ranges [s]).map Prod.snd).sum = 1) := by
  have hle : (results.filter (fun r => r.is_successful)).length ≤ results.length :=
    List.length_filter_le _ _
  refine ⟨?_, ?_, ?_, ?_⟩
  · rw [generate_report_summary]
    by_cases h : (results.filter (fun r => r.is_successful)).length = 0
    · rw [if_pos h]
      show 0 + results.length = results.length
      omega
    · rw [if_neg h]
      show (results.filter (fun r => r.is_successful)).length +
        (results.length - (results.filter (fun r => r.is_successful)).length) = results.length
      omega
  · rw [get_evaluation_summary]
    by_cases h0 : results.length = 0
    · rw [if_pos h0]
      show 0 + 0 = results.length
      omega
    · rw [if_neg h0]
      by_cases h : (results.filter (fun r => r.is_successful)).length ≠ 0
      · rw [if_pos h]
        show (results.filter (fun r => r.is_successful)).length +
          (results.length - (results.filter (fun r => r.is_successful)).length) = results.length
        omega
      · rw [if_neg h]
        show (results.filter (fun r => r.is_successful)).length +
          (results.length - (results.filter (fun r => r.is_successful)).length) = results.length
        omega
  · rw [get_evaluation_summary]
    by_cases h0 : results.length = 0
    · rw [if_pos h0]
      have : results = [] := List.eq_nil_of_length_eq_zero h0
      rw [this]
      rfl
    · rw [if_neg h0]
      by_cases h : (results.filter (fun r => r.is_successful)).length ≠ 0
      · rw [if_pos h]
        show ((score_ranges _).map Prod.snd).sum = _
        rw [score_ranges_sum, List.length_map, filterMap_metrics_length]
      · rw [if_neg h]
        show (([] : List (String × ℕ)).map Prod.snd).sum = _
        simp only [ne_eq, not_not] at h
        rw [h]
        rfl
  · intro s
    rw [score_ranges_sum]
    rfl

/-- Witness for C8 on a concrete one-element batch. -/
theorem claim_C8_witness :
    (generate_report_summary [bothPresentResult]).successful_evaluations +
      (generate_report_summary [bothPresentResult]).failed_evaluations =
      [bothPresentResult].length :=
  (claim_C8 [bothPresentResult]).1

/-- C9: two metrics values that agree on the four weighted categories
(differing, in particular, only in the repository_structure sub-scores)
get the same overall score and the same level; yet the
repository_structure average is consulted by the PASS requirement check
and can change the verdict, witnessed by a concrete pair differing only
in repository_structure. -/
theorem claim_C9 :
    (∀ m₁ m₂ : QAMetrics,
      m₁.test_automation = m₂.test_automation → m₁.ci_pipeline = m₂.ci_pipeline →
      m₁.quality_process = m₂.quality_process → m₁.technical_skills = m₂.technical_skills →
      calculate_overall_qa_score m₁ = calculate_overall_qa_score m₂ ∧
      determine_qa_level (calculate_overall_qa_score m₁) =
        determine_qa_level (calculate_overall_qa_score m₂)) ∧
    (∃ m₁ m₂ : QAMetrics,
      m₁.test_automation = m₂.test_automation ∧ m₁.ci_pipeline = m₂.ci_pipeline ∧
      m₁.quality_process = m₂.quality_process ∧ m₁.technical_skills = m₂.technical_skills ∧
      m₁.commit_count = m₂.commit_count ∧ m₁.test_file_count = m₂.test_file_count ∧
      m₁.repository_structure ≠ m₂.repository_structure ∧
      determine_verdict m₁ (calculate_overall_qa_score m₁) ≠
        determine_verdict m₂ (calculate_overall_qa_score m₂)) := by
  constructor
  · intro m₁ m₂ h1 h2 h3 h4
    have hs : calculate_overall_qa_score m₁ = calculate_overall_qa_score m₂ := by
      rw [calculate_eq_div, calculate_eq_div, h1, h2, h3, h4]
    exact ⟨hs, by rw [hs]⟩
  · refine ⟨allTensMetrics, lowRepoHighMetrics, rfl, rfl, rfl, rfl, rfl, rfl, by decide, ?_⟩
    have hsc : calculate_overall_qa_score allTensMetrics = 100 := by
      rw [calculate_eq_div]; rfl
    have hsc2 : calculate_overall_qa_score lowRepoHighMetrics = 100 := by
      rw [calculate_eq_div]; rfl
    rw [hsc, hsc2]
    have hv1 : determine_verdict allTensMetrics 100 =
        ("PASS", "Strong QA skills demonstrated across all areas (Score: 100)") := by
      rw [determine_verdict, if_pos (by simp [VERDICT_THRESHOLDS_PASS])]
      simp [applyRequirementChecks, MINIMUM_REQUIREMENTS_PASS, allTensMetrics, categoryCheck,
        catScore, QAMetrics.get_category_scores, TestAutomationMetrics.score_sum,
        RepositoryStructureMetrics.score_sum, List.lookup, assembleReason]
      norm_num
      rfl
    have hv2 : (determine_verdict lowRepoHighMetrics 100).1 = "CONDITIONAL_PASS" := by
      rw [determine_verdict, if_pos (by simp [VERDICT_THRESHOLDS_PASS])]
      simp [applyRequirementChecks, MINIMUM_REQUIREMENTS_PASS, lowRepoHighMetrics, categoryCheck,
        catScore, QAMetrics.get_category_scores, TestAutomationMetrics.score_sum,
        RepositoryStructureMetrics.score_sum, List.lookup, assembleReason]
      norm_num
    intro hcontra
    rw [hv1] at hcontra
    have : ("PASS" : String) = "CONDITIONAL_PASS" := by
      rw [← hv2, ← hcontra]
    exact absurd this (by decide)

/-- Witness for C9: the concrete pair differing only in
repository_structure aggregates to the same score. -/
theorem claim_C9_witness :
    calculate_overall_qa_score allTensMetrics = calculate_overall_qa_score lowRepoHighMetrics :=
  (claim_C9.1 allTensMetrics lowRepoHighMetrics rfl rfl rfl rfl).1

/-- C10: every call of `create_default_metrics` raises TypeError and
never returns a metrics value: the `TechnicalSkillsMetrics(0, 0, 0)`
call supplies only 3 of 5 required arguments (and the `QAMetrics(...)`
call, had it been reached, omits the required ci_pipeline,
quality_process and repository_structure keywords, which also raises
TypeError). -/
theorem claim_C10 :
    create_default_metrics =
      Except.error "TypeError: TechnicalSkillsMetrics takes 5 required arguments" ∧
    (∀ m : QAMetrics, create_default_metrics ≠ Except.ok m) ∧
    (∀ ta : TestAutomationMetrics, ∀ ts : TechnicalSkillsMetrics,
      qaMetricsInit
        ⟨some 0, some "unknown", some 0, some 0, some [], some ta, none, none,
         some ts, none, some 0, some "Beginner", some [], some [], some "FAIL",
         some "Not evaluated"⟩ =
        Except.error "TypeError: QAMetrics missing required arguments") := by
  refine ⟨rfl, ?_, fun ta ts => rfl⟩
  intro m hcontra
  rw [show create_default_metrics =
    Except.error "TypeError: TechnicalSkillsMetrics takes 5 required arguments" from rfl] at hcontra
  exact Except.noConfusion hcontra

/-- Witness for C10: the call does not return the all-tens metrics. -/
theorem claim_C10_witness :
    create_default_metrics ≠ Except.ok allTensMetrics :=
  claim_C10.2.1 allTensMetrics

end QAEval
